import Mathlib

/-!
Verification of the `reflex_clerk` page installers
(`src/custom_components/reflex_clerk/lib/reflex_clerk.py`).

The module defines three functions: `install_signin_page`,
`install_signup_page` and `install_pages`.  Each builds a UI tree out of
the components `clerk_provider`, `rx.center`, `rx.vstack`, `sign_in` /
`sign_up`, and stores it in the application's route table `app.pages`
under a key derived from the route.  A failed assertion propagates as an
exception; because `app.pages` is mutated in place in Python, an
exception raised after a mutation leaves that mutation visible, so the
embedding makes every exception carry the route table as it stood when
the exception was raised.
-/

namespace ReflexClerk

/-- The open-ended `**props` keyword options forwarded verbatim to the
underlying form widget: a mapping of option names to values. -/
abbrev Props := List (String × String)

/-- Modelled from the spec: the component constructors `clerk_provider`,
`sign_in` and `sign_up` live in sibling files of this repository that are
not present under `src/` (`clerk_provider.py`, `sign_in.py`,
`sign_up.py`), and `rx.center` / `rx.vstack` belong to the host
framework.  Per the spec they are opaque UI-tree builders: each returns a
node recording its child and the configuration it was given (the sign-in
and sign-up form components record the route as their path together with
the forwarded options; the provider wrapper records the publishable
key). -/
inductive Component where
  | sign_in (path : String) (props : Props)
  | sign_up (path : String) (props : Props)
  | vstack (child : Component) (align : String) (spacing : String)
  | center (child : Component) (height : String)
  | clerk_provider (child : Component) (publishable_key : Option String)
  deriving DecidableEq, Repr

/-- The application handle: the host framework's route table `app.pages`,
a Python `dict` mapping route keys to page components, embedded as an
insertion-ordered association list. -/
structure App where
  pages : List (String × Component)
  deriving DecidableEq, Repr

/-- Python `str.startswith(pre)`: `pre` is a prefix of the character
sequence of `s`.  (Stated over the character data so it evaluates by
kernel reduction.) -/
def startswith (s pre : String) : Bool := pre.data.isPrefixOf s.data

/-- Python `dict` assignment `d[k] = v`: replace the value at `k` in
place if the key is present, otherwise append the new binding. -/
def dictInsert (l : List (String × Component)) (k : String) (v : Component) :
    List (String × Component) :=
  match l with
  | [] => [(k, v)]
  | (k1, v1) :: rest =>
      if k1 = k then (k, v) :: rest else (k1, v1) :: dictInsert rest k v

/-- Python `dict` lookup `d[k]` (first binding wins). -/
def dictLookup (l : List (String × Component)) (k : String) : Option Component :=
  match l with
  | [] => none
  | (k1, v1) :: rest => if k1 = k then some v1 else dictLookup rest k

/-- `install_signin_page(app, publishable_key=None, route="/signin", **props)`:
assert the route is absolute, build
`clerk_provider(rx.center(rx.vstack(sign_in(path=route, **props),
align="center", spacing="7"), height="100vh"),
publishable_key=publishable_key)` and store it under
`route[1:] + "/[[...signin]]/index"`. -/
def install_signin_page (app : App) (publishable_key : Option String)
    (route : String) (props : Props) : Except (String × App) App :=
  if startswith route "/" then
    let signin_page :=
      Component.clerk_provider
        (Component.center
          (Component.vstack (Component.sign_in route props) "center" "7")
          "100vh")
        publishable_key
    Except.ok ⟨dictInsert app.pages (route.drop 1 ++ "/[[...signin]]/index") signin_page⟩
  else
    Except.error ("Expected route to be absolute (e.g. starts with '/')", app)

/-- `install_signup_page(app, publishable_key=None, route="/signup", **props)`:
identical to `install_signin_page` with the `sign_up` form and the
`"/[[...signup]]/index"` key suffix. -/
def install_signup_page (app : App) (publishable_key : Option String)
    (route : String) (props : Props) : Except (String × App) App :=
  if startswith route "/" then
    let signup_page :=
      Component.clerk_provider
        (Component.center
          (Component.vstack (Component.sign_up route props) "center" "7")
          "100vh")
        publishable_key
    Except.ok ⟨dictInsert app.pages (route.drop 1 ++ "/[[...signup]]/index") signup_page⟩
  else
    Except.error ("Expected route to be absolute (e.g. starts with '/')", app)

/-- `install_pages(app, publishable_key=None, signin_route="/signin",
signup_route="/signup", **props)`: run the sign-in installer, then the
sign-up installer, forwarding the same credential and options; an
exception in either sub-call propagates, carrying the route table as it
stood at that point. -/
def install_pages (app : App) (publishable_key : Option String)
    (signin_route : String) (signup_route : String) (props : Props) :
    Except (String × App) App :=
  match install_signin_page app publishable_key signin_route props with
  | Except.error e => Except.error e
  | Except.ok app1 => install_signup_page app1 publishable_key signup_route props

/-- The path the (unique) form component of a page tree was configured
with, if any. -/
def form_path : Component → Option String
  | Component.sign_in p _ => some p
  | Component.sign_up p _ => some p
  | Component.vstack c _ _ => form_path c
  | Component.center c _ => form_path c
  | Component.clerk_provider c _ => form_path c

/-- The forwarded options of the (unique) form component of a page tree,
if any. -/
def form_props : Component → Option Props
  | Component.sign_in _ ps => some ps
  | Component.sign_up _ ps => some ps
  | Component.vstack c _ _ => form_props c
  | Component.center c _ => form_props c
  | Component.clerk_provider c _ => form_props c

/-- The publishable key of a tree whose root is the provider wrapper. -/
def provider_key : Component → Option (Option String)
  | Component.clerk_provider _ k => some k
  | _ => none

/-! ### Helper lemmas about the route-table embedding -/

theorem dictLookup_dictInsert_self (l : List (String × Component)) (k : String)
    (v : Component) : dictLookup (dictInsert l k v) k = some v := by
  induction l with
  | nil => simp [dictInsert, dictLookup]
  | cons hd tl ih =>
      obtain ⟨k1, v1⟩ := hd
      by_cases h : k1 = k
      · simp [dictInsert, dictLookup, h]
      · simp [dictInsert, dictLookup, h, ih]

theorem dictLookup_dictInsert_ne (l : List (String × Component)) (k k2 : String)
    (v : Component) (h : k2 ≠ k) :
    dictLookup (dictInsert l k v) k2 = dictLookup l k2 := by
  induction l with
  | nil => simp [dictInsert, dictLookup, Ne.symm h]
  | cons hd tl ih =>
      obtain ⟨k1, v1⟩ := hd
      by_cases h1 : k1 = k
      · subst h1
        simp [dictInsert, dictLookup, Ne.symm h]
      · simp [dictInsert, dictLookup, h1, ih]

theorem dictInsert_keys (l : List (String × Component)) (k : String) (v : Component) :
    (dictInsert l k v).map Prod.fst =
      (if k ∈ l.map Prod.fst then l.map Prod.fst else l.map Prod.fst ++ [k]) := by
  induction l with
  | nil => simp [dictInsert]
  | cons hd tl ih =>
      obtain ⟨k1, v1⟩ := hd
      by_cases h : k1 = k
      · simp [dictInsert, h]
      · by_cases hm : k ∈ tl.map Prod.fst
        · simp [dictInsert, h, hm, ih, Ne.symm h]
        · simp [dictInsert, h, hm, ih, Ne.symm h]

theorem dictInsert_dictInsert_self (l : List (String × Component)) (k : String)
    (v : Component) : dictInsert (dictInsert l k v) k v = dictInsert l k v := by
  induction l with
  | nil => simp [dictInsert]
  | cons hd tl ih =>
      obtain ⟨k1, v1⟩ := hd
      by_cases h : k1 = k
      · simp [dictInsert, h]
      · simp [dictInsert, h, ih]

theorem signin_key_ne_signup_key (s : String) :
    s ++ "/[[...signin]]/index" ≠ s ++ "/[[...signup]]/index" := by
  intro h
  have hd := congrArg String.data h
  rw [String.data_append, String.data_append] at hd
  have h2 := List.append_cancel_left hd
  exact absurd h2 (by decide)

/-! ### The claims -/

/-- C1: for every route string that does not start with "/", each of the
three installers (`install_signin_page`, `install_signup_page`,
`install_pages` called with that route) raises the precondition error and
leaves `app.pages` unchanged: the propagated exception carries the
original, unmutated route table. -/
theorem non_absolute_route_rejected_without_mutation
    (app : App) (pk : Option String) (r r2 : String) (props : Props)
    (h : startswith r "/" = false) :
    install_signin_page app pk r props =
      Except.error ("Expected route to be absolute (e.g. starts with '/')", app) ∧
    install_signup_page app pk r props =
      Except.error ("Expected route to be absolute (e.g. starts with '/')", app) ∧
    install_pages app pk r r2 props =
      Except.error ("Expected route to be absolute (e.g. starts with '/')", app) := by
  refine ⟨?_, ?_, ?_⟩ <;>
    simp [install_pages, install_signin_page, install_signup_page, h]

/-- Witness for C1 at the concrete non-absolute route "signin". -/
theorem non_absolute_route_rejected_without_mutation_witness :
    install_signin_page ⟨[]⟩ none "signin" [] =
      Except.error ("Expected route to be absolute (e.g. starts with '/')", ⟨[]⟩) ∧
    install_signup_page ⟨[]⟩ none "signin" [] =
      Except.error ("Expected route to be absolute (e.g. starts with '/')", ⟨[]⟩) ∧
    install_pages ⟨[]⟩ none "signin" "/signup" [] =
      Except.error ("Expected route to be absolute (e.g. starts with '/')", ⟨[]⟩) :=
  non_absolute_route_rejected_without_mutation ⟨[]⟩ none "signin" "/signup" [] (by decide)

/-- C2: for every route R starting with "/", `install_signin_page`
succeeds and inserts exactly one entry under `R[1:] + "/[[...signin]]/index"`
(that key is bound afterwards, and the key list either gains exactly that
key at the end or, if the key was already bound, stays the same), and
`install_signup_page` does the same under `R[1:] + "/[[...signup]]/index"`. -/
theorem installers_insert_one_entry_at_derived_key
    (app : App) (pk : Option String) (R : String) (props : Props)
    (h : startswith R "/" = true) :
    ∃ a1 a2,
      install_signin_page app pk R props = Except.ok a1 ∧
      install_signup_page app pk R props = Except.ok a2 ∧
      (dictLookup a1.pages (R.drop 1 ++ "/[[...signin]]/index")).isSome = true ∧
      (dictLookup a2.pages (R.drop 1 ++ "/[[...signup]]/index")).isSome = true ∧
      a1.pages.map Prod.fst =
        (if (R.drop 1 ++ "/[[...signin]]/index") ∈ app.pages.map Prod.fst
          then app.pages.map Prod.fst
          else app.pages.map Prod.fst ++ [R.drop 1 ++ "/[[...signin]]/index"]) ∧
      a2.pages.map Prod.fst =
        (if (R.drop 1 ++ "/[[...signup]]/index") ∈ app.pages.map Prod.fst
          then app.pages.map Prod.fst
          else app.pages.map Prod.fst ++ [R.drop 1 ++ "/[[...signup]]/index"]) := by
  unfold install_signin_page install_signup_page
  simp only [h, if_true]
  exact ⟨_, _, rfl, rfl,
    by rw [dictLookup_dictInsert_self]; rfl,
    by rw [dictLookup_dictInsert_self]; rfl,
    dictInsert_keys _ _ _, dictInsert_keys _ _ _⟩

/-- Witness for C2 at route "/signin" on an empty application. -/
theorem installers_insert_one_entry_at_derived_key_witness :
    ∃ a1 a2,
      install_signin_page ⟨[]⟩ none "/signin" [] = Except.ok a1 ∧
      install_signup_page ⟨[]⟩ none "/signin" [] = Except.ok a2 ∧
      (dictLookup a1.pages ("/signin".drop 1 ++ "/[[...signin]]/index")).isSome = true ∧
      (dictLookup a2.pages ("/signin".drop 1 ++ "/[[...signup]]/index")).isSome = true ∧
      a1.pages.map Prod.fst =
        (if ("/signin".drop 1 ++ "/[[...signin]]/index") ∈ (App.mk []).pages.map Prod.fst
          then (App.mk []).pages.map Prod.fst
          else (App.mk []).pages.map Prod.fst ++ ["/signin".drop 1 ++ "/[[...signin]]/index"]) ∧
      a2.pages.map Prod.fst =
        (if ("/signin".drop 1 ++ "/[[...signup]]/index") ∈ (App.mk []).pages.map Prod.fst
          then (App.mk []).pages.map Prod.fst
          else (App.mk []).pages.map Prod.fst ++ ["/signin".drop 1 ++ "/[[...signup]]/index"]) :=
  installers_insert_one_entry_at_derived_key ⟨[]⟩ none "/signin" [] (by decide)

/-- C3: on a fresh application (empty route table), `install_pages` with
the default routes produces exactly the two entries
"signin/[[...signin]]/index" and "signup/[[...signup]]/index". -/
theorem install_pages_defaults_exactly_two_entries
    (pk : Option String) (props : Props) :
    ∃ a, install_pages ⟨[]⟩ pk "/signin" "/signup" props = Except.ok a ∧
      a.pages.map Prod.fst =
        ["signin/[[...signin]]/index", "signup/[[...signup]]/index"] :=
  ⟨_, rfl, rfl⟩

/-- C4: `install_pages` is the sequential composition of the sign-in
installer followed by the sign-up installer with the same credential and
forwarded options; when the sign-in route is absolute but the sign-up
route is not, it aborts with the precondition error and the exception
carries a route table in which the sign-in entry is already installed
(partial installation, no rollback). -/
theorem install_pages_sequences_and_leaves_partial_install
    (app : App) (pk : Option String) (r1 r2 : String) (props : Props)
    (h1 : startswith r1 "/" = true) (h2 : startswith r2 "/" = false) :
    (install_pages app pk r1 r2 props =
      match install_signin_page app pk r1 props with
      | Except.error e => Except.error e
      | Except.ok a => install_signup_page a pk r2 props) ∧
    ∃ a1,
      install_signin_page app pk r1 props = Except.ok a1 ∧
      install_pages app pk r1 r2 props =
        Except.error ("Expected route to be absolute (e.g. starts with '/')", a1) ∧
      (dictLookup a1.pages (r1.drop 1 ++ "/[[...signin]]/index")).isSome = true := by
  refine ⟨rfl, ?_⟩
  unfold install_pages install_signin_page install_signup_page
  simp only [h1, h2, if_true, Bool.false_eq_true, if_false]
  exact ⟨_, rfl, rfl, by rw [dictLookup_dictInsert_self]; rfl⟩

/-- Witness for C4 with routes "/signin" and "signup" on an empty
application. -/
theorem install_pages_sequences_and_leaves_partial_install_witness :
    (install_pages ⟨[]⟩ none "/signin" "signup" [] =
      match install_signin_page ⟨[]⟩ none "/signin" [] with
      | Except.error e => Except.error e
      | Except.ok a => install_signup_page a none "signup" []) ∧
    ∃ a1,
      install_signin_page ⟨[]⟩ none "/signin" [] = Except.ok a1 ∧
      install_pages ⟨[]⟩ none "/signin" "signup" [] =
        Except.error ("Expected route to be absolute (e.g. starts with '/')", a1) ∧
      (dictLookup a1.pages ("/signin".drop 1 ++ "/[[...signin]]/index")).isSome = true :=
  install_pages_sequences_and_leaves_partial_install ⟨[]⟩ none "/signin" "signup" []
    (by decide) (by decide)

/-- C5: for every absolute route, credential and forwarded options, the
page each installer stores carries the route as the form component's
path, the forwarded options unchanged as the form component's options,
and the credential unchanged as the publishable key of its root
provider-context wrapper. -/
theorem route_options_credential_passed_unchanged
    (app : App) (pk : Option String) (R : String) (props : Props)
    (h : startswith R "/" = true) :
    ∃ a1 a2 p1 p2,
      install_signin_page app pk R props = Except.ok a1 ∧
      install_signup_page app pk R props = Except.ok a2 ∧
      dictLookup a1.pages (R.drop 1 ++ "/[[...signin]]/index") = some p1 ∧
      dictLookup a2.pages (R.drop 1 ++ "/[[...signup]]/index") = some p2 ∧
      form_path p1 = some R ∧ form_props p1 = some props ∧
      provider_key p1 = some pk ∧
      form_path p2 = some R ∧ form_props p2 = some props ∧
      provider_key p2 = some pk := by
  unfold install_signin_page install_signup_page
  simp only [h, if_true]
  exact ⟨_, _, _, _, rfl, rfl,
    dictLookup_dictInsert_self _ _ _, dictLookup_dictInsert_self _ _ _,
    rfl, rfl, rfl, rfl, rfl, rfl⟩

/-- Witness for C5 at route "/signin" with a concrete option list and
credential on an empty application. -/
theorem route_options_credential_passed_unchanged_witness :
    ∃ a1 a2 p1 p2,
      install_signin_page ⟨[]⟩ (some "pk_test") "/signin" [("appearance", "dark")] =
        Except.ok a1 ∧
      install_signup_page ⟨[]⟩ (some "pk_test") "/signin" [("appearance", "dark")] =
        Except.ok a2 ∧
      dictLookup a1.pages ("/signin".drop 1 ++ "/[[...signin]]/index") = some p1 ∧
      dictLookup a2.pages ("/signin".drop 1 ++ "/[[...signup]]/index") = some p2 ∧
      form_path p1 = some "/signin" ∧
      form_props p1 = some [("appearance", "dark")] ∧
      provider_key p1 = some (some "pk_test") ∧
      form_path p2 = some "/signin" ∧
      form_props p2 = some [("appearance", "dark")] ∧
      provider_key p2 = some (some "pk_test") :=
  route_options_credential_passed_unchanged ⟨[]⟩ (some "pk_test") "/signin"
    [("appearance", "dark")] (by decide)

/-- C6: calling the same installer twice with the same route (and the
same credential and options) raises no error and the second call
overwrites the first: the composite result equals that of a single
call. -/
theorem repeat_install_same_route_overwrites
    (app : App) (pk : Option String) (R : String) (props : Props)
    (h : startswith R "/" = true) :
    ((install_signin_page app pk R props).bind
        (fun a => install_signin_page a pk R props) =
      install_signin_page app pk R props) ∧
    ((install_signup_page app pk R props).bind
        (fun a => install_signup_page a pk R props) =
      install_signup_page app pk R props) := by
  unfold install_signin_page install_signup_page
  simp only [h, if_true, Except.bind]
  rw [dictInsert_dictInsert_self, dictInsert_dictInsert_self]
  exact ⟨rfl, rfl⟩

/-- Witness for C6 at route "/signin" on an empty application. -/
theorem repeat_install_same_route_overwrites_witness :
    ((install_signin_page ⟨[]⟩ none "/signin" []).bind
        (fun a => install_signin_page a none "/signin" []) =
      install_signin_page ⟨[]⟩ none "/signin" []) ∧
    ((install_signup_page ⟨[]⟩ none "/signin" []).bind
        (fun a => install_signup_page a none "/signin" []) =
      install_signup_page ⟨[]⟩ none "/signin" []) :=
  repeat_install_same_route_overwrites ⟨[]⟩ none "/signin" [] (by decide)

/-- C7: for every absolute route, each single-page installer binds its
one derived key and leaves the binding of every other key of `app.pages`
exactly as it was. -/
theorem installer_touches_only_derived_key
    (app : App) (pk : Option String) (R : String) (props : Props)
    (h : startswith R "/" = true) :
    ∃ a1 a2,
      install_signin_page app pk R props = Except.ok a1 ∧
      install_signup_page app pk R props = Except.ok a2 ∧
      (dictLookup a1.pages (R.drop 1 ++ "/[[...signin]]/index")).isSome = true ∧
      (dictLookup a2.pages (R.drop 1 ++ "/[[...signup]]/index")).isSome = true ∧
      (∀ k, k ≠ R.drop 1 ++ "/[[...signin]]/index" →
        dictLookup a1.pages k = dictLookup app.pages k) ∧
      (∀ k, k ≠ R.drop 1 ++ "/[[...signup]]/index" →
        dictLookup a2.pages k = dictLookup app.pages k) := by
  unfold install_signin_page install_signup_page
  simp only [h, if_true]
  exact ⟨_, _, rfl, rfl,
    by rw [dictLookup_dictInsert_self]; rfl,
    by rw [dictLookup_dictInsert_self]; rfl,
    fun k hk => dictLookup_dictInsert_ne _ _ _ _ hk,
    fun k hk => dictLookup_dictInsert_ne _ _ _ _ hk⟩

/-- Witness for C7 at route "/signin" on a one-entry application,
checking the frame on the pre-existing key "other". -/
theorem installer_touches_only_derived_key_witness :
    ∃ a1 a2,
      install_signin_page ⟨[("other", Component.sign_in "/o" [])]⟩ none "/signin" [] =
        Except.ok a1 ∧
      install_signup_page ⟨[("other", Component.sign_in "/o" [])]⟩ none "/signin" [] =
        Except.ok a2 ∧
      (dictLookup a1.pages ("/signin".drop 1 ++ "/[[...signin]]/index")).isSome = true ∧
      (dictLookup a2.pages ("/signin".drop 1 ++ "/[[...signup]]/index")).isSome = true ∧
      (∀ k, k ≠ "/signin".drop 1 ++ "/[[...signin]]/index" →
        dictLookup a1.pages k =
          dictLookup (App.mk [("other", Component.sign_in "/o" [])]).pages k) ∧
      (∀ k, k ≠ "/signin".drop 1 ++ "/[[...signup]]/index" →
        dictLookup a2.pages k =
          dictLookup (App.mk [("other", Component.sign_in "/o" [])]).pages k) :=
  installer_touches_only_derived_key ⟨[("other", Component.sign_in "/o" [])]⟩ none
    "/signin" [] (by decide)

/-- C8: for every absolute route, the page installed by
`install_signin_page` is exactly the tree `clerk_provider` (with the
credential) around `center` (height "100vh") around `vstack` (align
"center", spacing "7") around a single `sign_in` form carrying the route
and the forwarded options, stored under the derived key. -/
theorem signin_page_tree_structure
    (app : App) (pk : Option String) (R : String) (props : Props)
    (h : startswith R "/" = true) :
    install_signin_page app pk R props =
      Except.ok ⟨dictInsert app.pages (R.drop 1 ++ "/[[...signin]]/index")
        (Component.clerk_provider
          (Component.center
            (Component.vstack (Component.sign_in R props) "center" "7")
            "100vh")
          pk)⟩ := by
  unfold install_signin_page
  simp only [h, if_true]

/-- Witness for C8 at route "/signin" on an empty application. -/
theorem signin_page_tree_structure_witness :
    install_signin_page ⟨[]⟩ none "/signin" [] =
      Except.ok ⟨dictInsert [] ("/signin".drop 1 ++ "/[[...signin]]/index")
        (Component.clerk_provider
          (Component.center
            (Component.vstack (Component.sign_in "/signin" []) "center" "7")
            "100vh")
          none)⟩ :=
  signin_page_tree_structure ⟨[]⟩ none "/signin" [] (by decide)

/-- C9: for every absolute route R, `install_pages` with both routes
equal to R succeeds and installs two distinct entries: the derived keys
differ (in their signin/signup suffix) and both are bound in the
resulting route table. -/
theorem same_route_installs_two_distinct_entries
    (app : App) (pk : Option String) (R : String) (props : Props)
    (h : startswith R "/" = true) :
    R.drop 1 ++ "/[[...signin]]/index" ≠ R.drop 1 ++ "/[[...signup]]/index" ∧
    ∃ a,
      install_pages app pk R R props = Except.ok a ∧
      (dictLookup a.pages (R.drop 1 ++ "/[[...signin]]/index")).isSome = true ∧
      (dictLookup a.pages (R.drop 1 ++ "/[[...signup]]/index")).isSome = true := by
  refine ⟨signin_key_ne_signup_key _, ?_⟩
  unfold install_pages install_signin_page install_signup_page
  simp only [h, if_true]
  refine ⟨_, rfl, ?_, ?_⟩
  · rw [dictLookup_dictInsert_ne _ _ _ _ (signin_key_ne_signup_key _),
      dictLookup_dictInsert_self]
    rfl
  · rw [dictLookup_dictInsert_self]
    rfl

/-- Witness for C9 at the shared route "/account" on an empty
application. -/
theorem same_route_installs_two_distinct_entries_witness :
    "/account".drop 1 ++ "/[[...signin]]/index" ≠
      "/account".drop 1 ++ "/[[...signup]]/index" ∧
    ∃ a,
      install_pages ⟨[]⟩ none "/account" "/account" [] = Except.ok a ∧
      (dictLookup a.pages ("/account".drop 1 ++ "/[[...signin]]/index")).isSome = true ∧
      (dictLookup a.pages ("/account".drop 1 ++ "/[[...signup]]/index")).isSome = true :=
  same_route_installs_two_distinct_entries ⟨[]⟩ none "/account" [] (by decide)

/-- C10: each installer is deterministic — its result depends only on its
arguments: calls on applications with equal route tables and identical
remaining arguments yield equal results. -/
theorem installers_deterministic
    (a b : App) (pk : Option String) (r1 r2 : String) (props : Props)
    (h : a.pages = b.pages) :
    install_signin_page a pk r1 props = install_signin_page b pk r1 props ∧
    install_signup_page a pk r1 props = install_signup_page b pk r1 props ∧
    install_pages a pk r1 r2 props = install_pages b pk r1 r2 props := by
  have hab : a = b := by
    cases a
    cases b
    simpa using h
  rw [hab]
  exact ⟨rfl, rfl, rfl⟩

/-- Witness for C10 on two structurally equal empty applications. -/
theorem installers_deterministic_witness :
    install_signin_page ⟨[]⟩ none "/signin" [] =
      install_signin_page ⟨[]⟩ none "/signin" [] ∧
    install_signup_page ⟨[]⟩ none "/signin" [] =
      install_signup_page ⟨[]⟩ none "/signin" [] ∧
    install_pages ⟨[]⟩ none "/signin" "/signup" [] =
      install_pages ⟨[]⟩ none "/signin" "/signup" [] :=
  installers_deterministic ⟨[]⟩ ⟨[]⟩ none "/signin" "/signup" [] rfl

end ReflexClerk
